import Mathlib

/-
Shallow embedding of `src/eq-dialog.js` (class `EqDialog`).

The document is modelled as the list of host-page elements (each with an
optional `id` attribute and an `innerHTML` string), together with the list
of `<dialog>` elements the library has appended to `document.body` and a
fresh-reference counter giving DOM elements their identity.  JS strings are
Lean `String`s; JS `null`/`undefined` for an attribute is `Option.none`;
JS string truthiness is `some s` with `s ≠ ""`.  Each method of the class
becomes a function threading the document state explicitly.
-/

namespace EqDialog

/-- Decimal digit list of `n` (most significant first), fuel-based so that it
reduces in the kernel.  `decGo n n` is the digit-character list of `n` for
`n ≠ 0`. -/
def decGo : Nat → Nat → List Char
  | 0, _ => []
  | fuel + 1, n => if n = 0 then [] else decGo fuel (n / 10) ++ [Nat.digitChar (n % 10)]

/-- Rendering of a natural number in decimal, as JS `String(n)` produces for
the loop counter of `generate_dialog_id`. -/
def natToString (n : Nat) : String :=
  if n = 0 then "0" else List.asString (decGo n n)

/-- First-occurrence string replacement on character lists, as JS
`String.prototype.replace` with a string pattern performs. -/
def replaceFirstAux (pat rep : List Char) : List Char → List Char
  | [] => if pat = [] then rep else []
  | c :: rest =>
    if pat.isPrefixOf (c :: rest) then rep ++ (c :: rest).drop pat.length
    else c :: replaceFirstAux pat rep rest

/-- JS `s.replace(pat, rep)` for a string pattern: replaces only the first
occurrence, leaves `s` unchanged when the pattern does not occur. -/
def replaceFirst (s pat rep : String) : String :=
  List.asString (replaceFirstAux pat.data rep.data s.data)

/-- Host-page element: optional `id` attribute and rendered `innerHTML`. -/
structure Elem where
  id : Option String
  innerHTML : String
deriving Repr, DecidableEq

/-- Dialog element built by `create_dialog`: `ref` is its DOM identity,
`id` its id attribute (the code never assigns one), `innerContent` the
`innerHTML` of its `.eq-dialog-inner` region, `style` the inline styles
applied to that region, `isOpen` the state toggled by `showModal`. -/
structure Dialog where
  ref : Nat
  id : Option String
  innerContent : String
  style : List (String × String)
  isOpen : Bool
deriving Repr, DecidableEq

/-- The document: page elements, library-appended dialogs, and the supply
of fresh DOM references. -/
structure Doc where
  elems : List Elem
  dialogs : List Dialog
  nextRef : Nat
deriving Repr, DecidableEq

/-- Constructor options of `EqDialog` (`this.settings`). -/
structure Settings where
  selector : String
  show_close_button : Bool
  close_button_text : String
  remove_inline_content : Bool
  style : List (String × String)
deriving Repr, DecidableEq

/-- The `eq_dialog_defaults` object of the source. -/
def eq_dialog_defaults : Settings :=
  { selector := ".eq-dialog"
    show_close_button := true
    close_button_text := "Close dialog"
    remove_inline_content := false
    style := [("width", "600px")] }

/-- Template `eq_dialog_defaults.template_close_button`. -/
def template_close_button : String :=
  "<form class=\"eq-close-btn\" method=\"dialog\"><button autofocus aria-label=\"\x7b\x7bclose_btn_txt\x7d\x7d\"></button></form>"

/-- Template `eq_dialog_defaults.template_video`. -/
def template_video : String :=
  "<video class=\"eq-dialog-video\" controls autoplay><source src=\"\x7b\x7bsrc\x7d\x7d\" type=\"\x7b\x7bformat\x7d\x7d\" />Sorry, your browser doesn\x27t support embedded videos, <a href=\"\x7b\x7bsrc\x7d\x7d\">download</a> and watch with your favorite video player!</video>"

/-- Every id attribute present in the document, in document order; the
document's global id namespace. -/
def docIds (doc : Doc) : List String :=
  doc.elems.filterMap (fun e => e.id) ++ doc.dialogs.filterMap (fun d => d.id)

/-- Truthiness of `document.getElementById(s)`: some element of the
document carries the id `s`. -/
def idExists (doc : Doc) (s : String) : Bool :=
  decide (s ∈ docIds doc)

/-- The element `document.getElementById` returns among the page elements:
the first one whose id attribute is `s`.  (Dialogs built by the library
never carry an id attribute, so they can never be the result.) -/
def findElemById : List Elem → String → Option Elem
  | [], _ => none
  | e :: rest, s => if e.id = some s then some e else findElemById rest s

/-- Effect of `inline_div.remove()`: drop the first element whose id is `s`. -/
def removeFirstById : List Elem → String → List Elem
  | [], _ => []
  | e :: rest, s => if e.id = some s then rest else e :: removeFirstById rest s

/-- Effect of `inline_div.removeAttribute('id')`: strip the id attribute of
the first element whose id is `s`. -/
def stripFirstById : List Elem → String → List Elem
  | [], _ => []
  | e :: rest, s =>
    if e.id = some s then { e with id := none } :: rest else e :: stripFirstById rest s

/-- Number of page elements whose id attribute is `s` (used to state
uniqueness of an inline fragment's id). -/
def countById : List Elem → String → Nat
  | [], _ => 0
  | e :: rest, s => (if e.id = some s then 1 else 0) + countById rest s

/-- The candidate identity `dialog_type + '-dialog-' + index`. -/
def dialog_id_str (kind : String) (n : Nat) : String :=
  kind ++ "-dialog-" ++ natToString n

/-- The `while (document.getElementById(id))` loop of `generate_dialog_id`,
fuel-based; `fuel` bounds the number of iterations still allowed. -/
def gen_loop (doc : Doc) (kind : String) : Nat → Nat → String
  | 0, index => dialog_id_str kind index
  | fuel + 1, index =>
    if idExists doc (dialog_id_str kind index) then gen_loop doc kind fuel (index + 1)
    else dialog_id_str kind index

/-- `EqDialog.generate_dialog_id`: starting from index 0, return the first
candidate id not present in the document.  One more iteration than there
are ids in the document always suffices, so the fuel never runs out. -/
def generate_dialog_id (doc : Doc) (kind : String) : String :=
  gen_loop doc kind ((docIds doc).length + 1) 0

/-- Suffix of the character list after its last `'.'`, when a dot exists:
the candidate capture of the regex `/(?:\.([^.]+))?$/`. -/
def lastDotSuffix : List Char → Option (List Char)
  | [] => none
  | c :: rest =>
    match lastDotSuffix rest with
    | some e => some e
    | none => if c = '.' then some rest else none

/-- The MIME-type hint `'video/' + matcher.exec(params.src)[1]` of the video
branch of `create_dialog`: the capture is the (dot-free, non-empty) substring
after the last dot, and JS renders an unmatched capture as `undefined`. -/
def video_format (src : String) : String :=
  "video/" ++
    match lastDotSuffix src.data with
    | some e => if e = [] then "undefined" else List.asString e
    | none => "undefined"

/-- Close-button markup: the template with `close_btn_txt` substituted; a
missing parameter is rendered as JS renders `undefined`. -/
def close_button_html (txt : Option String) : String :=
  replaceFirst template_close_button "\x7b\x7bclose_btn_txt\x7d\x7d" (txt.getD "undefined")

/-- Image markup of `create_dialog`. -/
def render_image (src alt : String) : String :=
  "<img src=\"" ++ src ++ "\" alt=\"" ++ alt ++ "\">"

/-- Video markup of `create_dialog`: the template with the first `src`
placeholder and then the first `format` placeholder substituted. -/
def render_video (src : String) : String :=
  replaceFirst (replaceFirst template_video "\x7b\x7bsrc\x7d\x7d" src)
    "\x7b\x7bformat\x7d\x7d" (video_format src)

/-- Iframe markup of `create_dialog`. -/
def render_iframe (src : String) : String :=
  "<iframe src=\"" ++ src ++ "\">"

/-- Parameter object passed to `create_dialog`. -/
structure Params where
  dialog_type : String
  dialog_id : String
  src : String
  img_alt : String
  close_button_text : Option String
deriving Repr, DecidableEq

/-- Result of `create_dialog`: the returned dialog (`none` models the
`return false` failure), the document afterwards, and the `console.error`
diagnostics emitted. -/
structure CDResult where
  dialog : Option Dialog
  doc : Doc
  errors : List String
deriving Repr, DecidableEq

/-- `EqDialog.create_dialog`: builds the dialog element, assembles its inner
content (optional close button, then content per `dialog_type`), for inline
content moves the fragment's `innerHTML` into the dialog and then removes
the fragment or strips its id per `remove_inline_content`, and appends the
dialog to `document.body`.  When the inline fragment is missing it reports
and returns `false` without touching the document. -/
def create_dialog (settings : Settings) (params : Params) (doc : Doc) : CDResult :=
  let ref := doc.nextRef
  let base := if settings.show_close_button then close_button_html params.close_button_text else ""
  if params.dialog_type = "inline" then
    match findElemById doc.elems params.dialog_id with
    | none =>
      { dialog := none, doc := doc
        errors := ["Unable to find element with ID of \x27#" ++ params.dialog_id ++ "\x27"] }
    | some frag =>
      let content := base ++ frag.innerHTML
      let elems :=
        if settings.remove_inline_content then removeFirstById doc.elems params.dialog_id
        else stripFirstById doc.elems params.dialog_id
      let d : Dialog :=
        { ref := ref, id := none, innerContent := content, style := settings.style, isOpen := false }
      { dialog := some d
        doc := { elems := elems, dialogs := doc.dialogs ++ [d], nextRef := ref + 1 }
        errors := [] }
  else
    let content := base ++
      (if params.dialog_type = "image" then render_image params.src params.img_alt
       else if params.dialog_type = "video" then render_video params.src
       else if params.dialog_type = "iframe" then render_iframe params.src
       else "")
    let d : Dialog :=
      { ref := ref, id := none, innerContent := content, style := settings.style, isOpen := false }
    { dialog := some d
      doc := { elems := doc.elems, dialogs := doc.dialogs ++ [d], nextRef := ref + 1 }
      errors := [] }

/-- `dlg.showModal()`: mark the dialog with DOM reference `ref` as open. -/
def showModalOn (doc : Doc) (ref : Nat) : Doc :=
  { doc with
    dialogs := doc.dialogs.map (fun d => if d.ref = ref then { d with isOpen := true } else d) }

/-- Result of the public `open` method. -/
structure OpenResult where
  dialog : Option Dialog
  doc : Doc
  errors : List String
deriving Repr, DecidableEq

/-- `EqDialog.open(dialog_type, source, img_alt)`: the guards are translated
with the grouping JS operator precedence gives them, namely
`inline && !source` and `image || iframe || (video && !source)`; past the
guards it runs `create_dialog` and then `showModal` on the result. -/
def openDialog (settings : Settings) (dialog_type source img_alt : String) (doc : Doc) :
    OpenResult :=
  if dialog_type = "inline" ∧ source = "" then
    { dialog := none, doc := doc, errors := ["Inline dialogs must have a target."] }
  else if dialog_type = "image" ∨ dialog_type = "iframe" ∨ (dialog_type = "video" ∧ source = "") then
    { dialog := none, doc := doc, errors := ["Media dialogs must have a source."] }
  else
    let r := create_dialog settings
      { dialog_type := dialog_type
        dialog_id := if dialog_type = "inline" then source else generate_dialog_id doc dialog_type
        src := if dialog_type = "inline" then "" else source
        img_alt := img_alt
        close_button_text := none } doc
    match r.dialog with
    | none => { dialog := none, doc := r.doc, errors := r.errors }
    | some d => { dialog := some d, doc := showModalOn r.doc d.ref, errors := r.errors }

/-- Line terminators that the un-flagged JS `.` does not match. -/
def is_line_term (c : Char) : Bool :=
  c = '\n' || c = '\r' || c = '\u2028' || c = '\u2029'

/-- The optional trailing group `((\?|#).*)?$` of the extension regexes:
either nothing remains, or a `?` or `#` followed by non-line-terminators
up to the end. -/
def tail_ok : List Char → Bool
  | [] => true
  | c :: rest => (c = '?' || c = '#') && rest.all (fun x => !is_line_term x)

/-- Match of `\.(ext)((\?|#).*)?$` at the current position: a dot, one of
the extensions, then an admissible tail. -/
def ext_match_here (exts : List (List Char)) (cs : List Char) : Bool :=
  match cs with
  | [] => false
  | c :: rest =>
    if c = '.' then exts.any (fun e => e.isPrefixOf rest && tail_ok (rest.drop e.length))
    else false

/-- Unanchored regex search: the extension pattern matches at some position
of the character list. -/
def ext_match_from (exts : List (List Char)) : List Char → Bool
  | [] => false
  | c :: rest => ext_match_here exts (c :: rest) || ext_match_from exts rest

/-- Characters of `s` lowered, implementing the `/i` flag of the source
regexes. -/
def lowerData (s : String) : List Char :=
  s.data.map Char.toLower

/-- Case-insensitive match of `\.(exts)((\?|#).*)?$` anywhere in `s`. -/
def ext_match (exts : List String) (s : String) : Bool :=
  ext_match_from (exts.map String.data) (lowerData s)

/-- Extensions of the image alternative `jp(e|g|eg)|gif|png|bmp|webp|svg|ico`. -/
def image_exts : List String :=
  ["jpe", "jpg", "jpeg", "gif", "png", "bmp", "webp", "svg", "ico"]

/-- Extensions of the video regex. -/
def video_exts : List String :=
  ["mp4", "mov", "ogg", "webm"]

/-- Character class `[a-z0-9+\/=]` of the data-URI alternative (after
lowering). -/
def data_image_class (c : Char) : Bool :=
  c.isLower || c.isDigit || c = '+' || c = '/' || c = '='

/-- After the literal `data:image/`: zero or more class characters, then a
comma. -/
def data_image_after : List Char → Bool
  | [] => false
  | c :: rest => if c = ',' then true else if data_image_class c then data_image_after rest else false

/-- The anchored alternative `^data:image\/[a-z0-9+\/=]*,` of the image
regex, case-insensitively. -/
def data_image_match (s : String) : Bool :=
  ("data:image/".data.isPrefixOf (lowerData s)) && data_image_after ((lowerData s).drop 11)

/-- The full image regex of `init`. -/
def image_match (s : String) : Bool :=
  data_image_match s || ext_match image_exts s

/-- The video regex of `init`. -/
def video_match (s : String) : Bool :=
  ext_match video_exts s

/-- The pdf regex of `init`. -/
def pdf_match (s : String) : Bool :=
  ext_match ["pdf"] s

/-- Kind inference of `init` for a trigger without `data-type`: the
if/else-if chain over the source, in source order, with no default. -/
def classify (src : String) : Option String :=
  if image_match src then some "image"
  else if video_match src then some "video"
  else if pdf_match src then some "iframe"
  else if src.data.head? = some '#' then some "inline"
  else none

/-- Attributes of a trigger element that `init` reads. -/
structure Trigger where
  dataType : Option String
  href : Option String
  dataTarget : Option String
  imgAlt : Option String
  closeBtnTxt : Option String
deriving Repr, DecidableEq

/-- JS string truthiness: an absent attribute and the empty string are both
falsy. -/
def truthy : Option String → Option String
  | none => none
  | some s => if s = "" then none else some s

/-- Source resolution of `init`: `href ? href : el.dataset.target ? ... : false`. -/
def trigger_src (el : Trigger) : Option String :=
  match truthy el.href with
  | some h => some h
  | none => truthy el.dataTarget

/-- The parameter object `init` passes to `create_dialog` for a trigger:
the raw source is forwarded unmodified. -/
def mk_init_params (settings : Settings) (el : Trigger) (ty dialog_id src : String) : Params :=
  { dialog_type := ty
    dialog_id := dialog_id
    src := src
    img_alt := (truthy el.imgAlt).getD ""
    close_button_text := some ((truthy el.closeBtnTxt).getD settings.close_button_text) }

/-- Result of processing one trigger in `init`: the document afterwards, the
dialog built (if any), the trigger's `href` attribute afterwards, and the
diagnostics emitted. -/
structure InitResult where
  doc : Doc
  dialog : Option Dialog
  newHref : Option String
  errors : List String
deriving Repr, DecidableEq

/-- Body of the `forEach` of `EqDialog.init` for one trigger element:
resolve the source, resolve the kind (explicit `data-type` first, else
inference), derive the identity (fragment reference for inline, else
`generate_dialog_id`), build the dialog, and rewrite a hyperlink trigger's
`href` to the in-page anchor of the identity. -/
def init_trigger (settings : Settings) (el : Trigger) (doc : Doc) : InitResult :=
  match trigger_src el with
  | none =>
    { doc := doc, dialog := none, newHref := el.href
      errors := ["Could not determine the dialog source. Please set the attribute \x27href\x27 or \x27data-target\x27"] }
  | some src =>
    match (match truthy el.dataType with | some t => some t | none => classify src) with
    | none =>
      { doc := doc, dialog := none, newHref := el.href
        errors := ["Could not determine the dialog type for " ++ src ++ ". Please specify the attribute \x27data-type\x27 or \x27href\x27."] }
    | some ty =>
      let dialog_id :=
        if ty = "inline" ∧ src ≠ "" then src.drop 1 else generate_dialog_id doc ty
      let r := create_dialog settings (mk_init_params settings el ty dialog_id src) doc
      match r.dialog with
      | none => { doc := r.doc, dialog := none, newHref := el.href, errors := r.errors }
      | some d =>
        { doc := r.doc, dialog := some d
          newHref := if (truthy el.href).isSome then some ("#" ++ dialog_id) else el.href
          errors := r.errors }

/-- A keydown event, with the fields a `KeyboardEvent` carries. -/
structure KeyEvent where
  key : String
  shiftKey : Bool
  ctrlKey : Bool
  altKey : Bool
  metaKey : Bool
deriving Repr, DecidableEq

/-- State the keydown listener observes: the focusable descendants of the
open dialog when one is open (recomputed at this very event), and
`document.activeElement`, which the DOM allows to be null. -/
structure TrapState where
  openFocusables : Option (List Nat)
  activeElement : Option Nat
deriving Repr, DecidableEq

/-- Outcome of the keydown listener: either a JS exception, or the pair of
whether default navigation was cancelled and which element received focus. -/
inductive TrapOut where
  | jsError : TrapOut
  | result : Bool → Option Nat → TrapOut
deriving Repr, DecidableEq

/-- The keydown listener installed by the constructor: return when no dialog
is open; otherwise take the first and last focusable (`NodeList.item` yields
null on an empty list), trap un-shifted Tab on the last and shifted Tab on
the first, and calling `.focus()` on a null first/last throws. -/
def keydown (st : TrapState) (e : KeyEvent) : TrapOut :=
  match st.openFocusables with
  | none => .result false none
  | some fs =>
    let first := fs[0]?
    let last := fs[fs.length - 1]?
    if e.shiftKey = false ∧ e.key = "Tab" ∧ st.activeElement = last then
      match first with
      | some f => .result true (some f)
      | none => .jsError
    else if e.shiftKey = true ∧ e.key = "Tab" ∧ st.activeElement = first then
      match last with
      | some l => .result true (some l)
      | none => .jsError
    else .result false none

/-- The empty document. -/
def emptyDoc : Doc :=
  { elems := [], dialogs := [], nextRef := 0 }

/-- All dialogs of the document are id-less (the state the library always
produces, since `create_dialog` never assigns an id attribute). -/
def dialogsNoId (doc : Doc) : Prop :=
  ∀ d ∈ doc.dialogs, d.id = none


/-! Helper lemmas: decimal rendering, identity generation. -/

theorem str_eq_of_data_eq {s t : String} (h : s.data = t.data) : s = t := by
  cases s
  cases t
  exact congrArg String.mk h

theorem decGo_eq : ∀ fuel n, n ≤ fuel → decGo fuel n = ((Nat.digits 10 n).map Nat.digitChar).reverse := by
  intro fuel
  induction fuel with
  | zero =>
    intro n hn
    interval_cases n
    simp [decGo]
  | succ fuel ih =>
    intro n hn
    by_cases h0 : n = 0
    · subst h0
      simp [decGo]
    · have hpos : 0 < n := Nat.pos_of_ne_zero h0
      have hdiv : n / 10 ≤ fuel := by
        have := Nat.div_lt_self hpos (by norm_num : 1 < 10)
        omega
      rw [decGo, if_neg h0, ih (n / 10) hdiv,
        Nat.digits_def' (by norm_num : (1 : ℕ) < 10) hpos]
      simp

theorem digitChar_inj_lt : ∀ d < 10, ∀ e < 10, Nat.digitChar d = Nat.digitChar e → d = e := by
  decide

theorem map_digitChar_inj :
    ∀ l1 l2 : List Nat, (∀ x ∈ l1, x < 10) → (∀ x ∈ l2, x < 10) →
      l1.map Nat.digitChar = l2.map Nat.digitChar → l1 = l2 := by
  intro l1
  induction l1 with
  | nil =>
    intro l2 _ _ h
    cases l2 with
    | nil => rfl
    | cons b t2 => simp at h
  | cons a t ih =>
    intro l2 h1 h2 h
    cases l2 with
    | nil => simp at h
    | cons b t2 =>
      simp only [List.map_cons, List.cons.injEq] at h
      have hab : a = b :=
        digitChar_inj_lt a (h1 a (by simp)) b (h2 b (by simp)) h.1
      have ht : t = t2 :=
        ih t2 (fun x hx => h1 x (by simp [hx])) (fun x hx => h2 x (by simp [hx])) h.2
      rw [hab, ht]

theorem digits_eq_of_map_digitChar_eq {a b : Nat}
    (h : (Nat.digits 10 a).map Nat.digitChar = (Nat.digits 10 b).map Nat.digitChar) : a = b := by
  have hd : Nat.digits 10 a = Nat.digits 10 b :=
    map_digitChar_inj _ _
      (fun x hx => Nat.digits_lt_base (by norm_num) hx)
      (fun x hx => Nat.digits_lt_base (by norm_num) hx) h
  have := congrArg (Nat.ofDigits 10) hd
  simpa [Nat.ofDigits_digits] using this

theorem eq_zero_of_digits_map_char {b : Nat}
    (h : (Nat.digits 10 b).map Nat.digitChar = ['0']) : b = 0 := by
  have hsing : ∃ d, Nat.digits 10 b = [d] ∧ Nat.digitChar d = '0' := by
    cases hd : Nat.digits 10 b with
    | nil =>
      rw [hd] at h
      simp at h
    | cons x t =>
      rw [hd] at h
      cases t with
      | nil =>
        simp at h
        exact ⟨x, rfl, h⟩
      | cons y t2 => simp at h
  obtain ⟨d, hd, hc⟩ := hsing
  have hdlt : d < 10 := Nat.digits_lt_base (by norm_num) (by rw [hd]; simp)
  have hd0 : d = 0 := digitChar_inj_lt d hdlt 0 (by norm_num) (by rw [hc]; rfl)
  have hof := Nat.ofDigits_digits 10 b
  rw [hd, hd0] at hof
  simpa [Nat.ofDigits] using hof.symm

theorem natToString_inj : Function.Injective natToString := by
  intro a b h
  unfold natToString at h
  by_cases ha : a = 0 <;> by_cases hb : b = 0
  · omega
  · exfalso
    rw [if_pos ha, if_neg hb] at h
    have hdata : ['0'] = decGo b b := congrArg String.data h
    rw [decGo_eq b b le_rfl] at hdata
    have hmap : (Nat.digits 10 b).map Nat.digitChar = ['0'] := by
      have := congrArg List.reverse hdata
      simpa using this.symm
    exact hb (eq_zero_of_digits_map_char hmap)
  · exfalso
    rw [if_neg ha, if_pos hb] at h
    have hdata : decGo a a = ['0'] := congrArg String.data h
    rw [decGo_eq a a le_rfl] at hdata
    have hmap : (Nat.digits 10 a).map Nat.digitChar = ['0'] := by
      have := congrArg List.reverse hdata
      simpa using this
    exact ha (eq_zero_of_digits_map_char hmap)
  · rw [if_neg ha, if_neg hb] at h
    have hdata : decGo a a = decGo b b := congrArg String.data h
    rw [decGo_eq a a le_rfl, decGo_eq b b le_rfl] at hdata
    exact digits_eq_of_map_digitChar_eq (List.reverse_injective hdata)

theorem append_left_cancel_str {a b c : String} (h : a ++ b = a ++ c) : b = c := by
  have h2 : a.data ++ b.data = a.data ++ c.data := by
    simpa [String.data_append] using congrArg String.data h
  exact str_eq_of_data_eq (List.append_cancel_left h2)

theorem dialog_id_str_inj (kind : String) : Function.Injective (dialog_id_str kind) := by
  intro m n h
  exact natToString_inj (append_left_cancel_str (a := kind ++ "-dialog-") h)

theorem dialog_id_str_zero (kind : String) : dialog_id_str kind 0 = kind ++ "-dialog-0" := by
  apply str_eq_of_data_eq
  show (kind ++ "-dialog-" ++ natToString 0).data = (kind ++ "-dialog-0").data
  simp [String.data_append, natToString]

theorem gen_loop_spec (doc : Doc) (kind : String) :
    ∀ fuel index,
      (∃ n, index ≤ n ∧ n < index + fuel ∧ idExists doc (dialog_id_str kind n) = false) →
      ∃ m, gen_loop doc kind fuel index = dialog_id_str kind m ∧ index ≤ m ∧
        idExists doc (dialog_id_str kind m) = false ∧
        ∀ j, index ≤ j → j < m → idExists doc (dialog_id_str kind j) = true := by
  intro fuel
  induction fuel with
  | zero =>
    rintro index ⟨n, h1, h2, -⟩
    omega
  | succ fuel ih =>
    intro index h
    by_cases hc : idExists doc (dialog_id_str kind index) = true
    · obtain ⟨n, h1, h2, h3⟩ := h
      have hne : n ≠ index := by
        intro he
        rw [he, hc] at h3
        cases h3
      obtain ⟨m, hm1, hm2, hm3, hm4⟩ := ih (index + 1) ⟨n, by omega, by omega, h3⟩
      refine ⟨m, ?_, by omega, hm3, ?_⟩
      · rw [gen_loop, if_pos hc]
        exact hm1
      · intro j hj1 hj2
        rcases Nat.lt_or_ge j (index + 1) with hl | hg
        · have : j = index := by omega
          rw [this]
          exact hc
        · exact hm4 j hg hj2
    · have hcf : idExists doc (dialog_id_str kind index) = false := by
        simpa using hc
      refine ⟨index, ?_, le_rfl, hcf, by omega⟩
      rw [gen_loop, if_neg (by simp [hcf])]

theorem exists_free_index (doc : Doc) (kind : String) :
    ∃ n, n < (docIds doc).length + 1 ∧ idExists doc (dialog_id_str kind n) = false := by
  by_contra hall
  push_neg at hall
  have hmem : ∀ n < (docIds doc).length + 1, dialog_id_str kind n ∈ docIds doc := by
    intro n hn
    have hne := hall n hn
    have ht : idExists doc (dialog_id_str kind n) = true := by
      cases hb : idExists doc (dialog_id_str kind n)
      · exact absurd hb hne
      · rfl
    simpa [idExists] using ht
  have hcard :
      ((Finset.range ((docIds doc).length + 1)).image (dialog_id_str kind)).card
        = (docIds doc).length + 1 := by
    rw [Finset.card_image_of_injective _ (dialog_id_str_inj kind), Finset.card_range]
  have hsub :
      (Finset.range ((docIds doc).length + 1)).image (dialog_id_str kind)
        ⊆ (docIds doc).toFinset := by
    intro x hx
    simp only [Finset.mem_image, Finset.mem_range] at hx
    obtain ⟨n, hn, rfl⟩ := hx
    simpa [List.mem_toFinset] using hmem n hn
  have h1 := Finset.card_le_card hsub
  have h2 := List.toFinset_card_le (docIds doc)
  omega

theorem generate_dialog_id_spec (doc : Doc) (kind : String) :
    ∃ m, generate_dialog_id doc kind = dialog_id_str kind m ∧
      idExists doc (dialog_id_str kind m) = false ∧
      ∀ j < m, idExists doc (dialog_id_str kind j) = true := by
  obtain ⟨n, hn, hfree⟩ := exists_free_index doc kind
  obtain ⟨m, h1, -, h3, h4⟩ :=
    gen_loop_spec doc kind ((docIds doc).length + 1) 0 ⟨n, Nat.zero_le n, by omega, hfree⟩
  exact ⟨m, h1, h3, fun j hj => h4 j (Nat.zero_le j) hj⟩

theorem generate_dialog_id_fresh (doc : Doc) (kind : String) :
    idExists doc (generate_dialog_id doc kind) = false := by
  obtain ⟨m, h1, h2, -⟩ := generate_dialog_id_spec doc kind
  rw [h1]
  exact h2


/-! Helper lemmas: shape of `create_dialog` results, list surgery on the
fragment list, and the regex predicates. -/

theorem create_dialog_shape (settings : Settings) (params : Params) (doc : Doc) (d : Dialog)
    (h : (create_dialog settings params doc).dialog = some d) :
    d.id = none ∧ (create_dialog settings params doc).doc.dialogs = doc.dialogs ++ [d] := by
  by_cases hty : params.dialog_type = "inline"
  · cases hfind : findElemById doc.elems params.dialog_id with
    | none => simp [create_dialog, hty, hfind] at h
    | some frag =>
      simp only [create_dialog, hty, if_true, hfind] at h ⊢
      simp only [Option.some.injEq] at h
      subst h
      simp
  · simp only [create_dialog, hty, if_false, ite_false] at h ⊢
    simp only [Option.some.injEq] at h
    subst h
    simp

theorem create_dialog_docIds_stable (settings : Settings) (params : Params) (doc : Doc)
    (hty : params.dialog_type ≠ "inline") :
    docIds (create_dialog settings params doc).doc = docIds doc := by
  simp [create_dialog, hty, docIds]

theorem gen_loop_congr {d1 d2 : Doc} (h : ∀ s, idExists d1 s = idExists d2 s) (kind : String) :
    ∀ fuel index, gen_loop d1 kind fuel index = gen_loop d2 kind fuel index := by
  intro fuel
  induction fuel with
  | zero => intro i; rfl
  | succ f ih =>
    intro i
    rw [gen_loop, gen_loop, h (dialog_id_str kind i), ih (i + 1)]

theorem generate_dialog_id_congr {d1 d2 : Doc} (h : docIds d1 = docIds d2) (kind : String) :
    generate_dialog_id d1 kind = generate_dialog_id d2 kind := by
  unfold generate_dialog_id
  rw [h]
  exact gen_loop_congr (fun s => by simp [idExists, h]) kind _ _

theorem findElemById_decomp :
    ∀ (l : List Elem) (s : String) (f : Elem), findElemById l s = some f →
      ∃ pre post, l = pre ++ f :: post ∧ f.id = some s ∧ ∀ e ∈ pre, e.id ≠ some s := by
  intro l
  induction l with
  | nil =>
    intro s f h
    simp [findElemById] at h
  | cons e r ih =>
    intro s f h
    by_cases he : e.id = some s
    · simp only [findElemById, he, if_true, Option.some.injEq] at h
      subst h
      exact ⟨[], r, by simp, he, by simp⟩
    · simp only [findElemById, he, if_false, ite_false] at h
      obtain ⟨pre, post, rfl, hf, hpre⟩ := ih s f h
      refine ⟨e :: pre, post, by simp, hf, ?_⟩
      intro x hx
      rcases List.mem_cons.mp hx with rfl | hx2
      · exact he
      · exact hpre x hx2

theorem stripFirstById_decomp :
    ∀ (pre : List Elem) (f : Elem) (post : List Elem) (s : String),
      f.id = some s → (∀ e ∈ pre, e.id ≠ some s) →
      stripFirstById (pre ++ f :: post) s = pre ++ { f with id := none } :: post := by
  intro pre
  induction pre with
  | nil =>
    intro f post s hf _
    simp [stripFirstById, hf]
  | cons e r ih =>
    intro f post s hf hpre
    have he : e.id ≠ some s := hpre e (by simp)
    simp only [List.cons_append, stripFirstById, he, if_false, ite_false, List.cons.injEq,
      true_and]
    exact ih f post s hf (fun x hx => hpre x (by simp [hx]))

theorem removeFirstById_decomp :
    ∀ (pre : List Elem) (f : Elem) (post : List Elem) (s : String),
      f.id = some s → (∀ e ∈ pre, e.id ≠ some s) →
      removeFirstById (pre ++ f :: post) s = pre ++ post := by
  intro pre
  induction pre with
  | nil =>
    intro f post s hf _
    simp [removeFirstById, hf]
  | cons e r ih =>
    intro f post s hf hpre
    have he : e.id ≠ some s := hpre e (by simp)
    simp only [List.cons_append, removeFirstById, he, if_false, ite_false, List.cons.injEq,
      true_and]
    exact ih f post s hf (fun x hx => hpre x (by simp [hx]))

theorem countById_zero_find : ∀ (l : List Elem) (s : String),
    countById l s = 0 → findElemById l s = none := by
  intro l
  induction l with
  | nil => intro s _; rfl
  | cons e r ih =>
    intro s h
    by_cases he : e.id = some s
    · simp [countById, he] at h
    · simp only [countById, he, if_false, ite_false, Nat.zero_add] at h
      simp only [findElemById, he, if_false, ite_false]
      exact ih s h

theorem find_after_strip : ∀ (l : List Elem) (s : String),
    countById l s ≤ 1 → findElemById (stripFirstById l s) s = none := by
  intro l
  induction l with
  | nil => intro s _; rfl
  | cons e r ih =>
    intro s h
    by_cases he : e.id = some s
    · simp only [countById, he, if_true] at h
      have hr : countById r s = 0 := by omega
      simp only [stripFirstById, he, if_true, findElemById]
      rw [if_neg (by simp)]
      exact countById_zero_find r s hr
    · simp only [countById, he, if_false, ite_false, Nat.zero_add] at h
      simp only [stripFirstById, he, if_false, ite_false, findElemById]
      exact ih s h

theorem find_after_remove : ∀ (l : List Elem) (s : String),
    countById l s ≤ 1 → findElemById (removeFirstById l s) s = none := by
  intro l
  induction l with
  | nil => intro s _; rfl
  | cons e r ih =>
    intro s h
    by_cases he : e.id = some s
    · simp only [countById, he, if_true] at h
      have hr : countById r s = 0 := by omega
      simp only [removeFirstById, he, if_true]
      exact countById_zero_find r s hr
    · simp only [countById, he, if_false, ite_false, Nat.zero_add] at h
      simp only [removeFirstById, he, if_false, ite_false, findElemById]
      exact ih s h

theorem isPrefixOf_iff_exists : ∀ p l : List Char, p.isPrefixOf l = true ↔ ∃ t, l = p ++ t := by
  intro p
  induction p with
  | nil =>
    intro l
    simp [List.isPrefixOf]
  | cons a p ih =>
    intro l
    cases l with
    | nil => simp [List.isPrefixOf]
    | cons b l2 =>
      simp only [List.isPrefixOf, Bool.and_eq_true, beq_iff_eq, ih l2, List.cons_append,
        List.cons.injEq]
      constructor
      · rintro ⟨hab, t, rfl⟩
        exact ⟨t, hab.symm, rfl⟩
      · rintro ⟨t, hb, rfl⟩
        exact ⟨hb.symm, t, rfl⟩

theorem ext_here_iff (exts : List (List Char)) (cs : List Char) :
    ext_match_here exts cs = true ↔
      ∃ e ∈ exts, ∃ t, cs = '.' :: (e ++ t) ∧ tail_ok t = true := by
  cases cs with
  | nil => simp [ext_match_here]
  | cons c rest =>
    by_cases hc : c = '.'
    · subst hc
      simp only [ext_match_here, if_true, List.any_eq_true, Bool.and_eq_true, List.cons.injEq,
        true_and]
      constructor
      · rintro ⟨e, he, hp, ht⟩
        obtain ⟨t, rfl⟩ := (isPrefixOf_iff_exists e rest).mp hp
        rw [List.drop_left] at ht
        exact ⟨e, he, t, rfl, ht⟩
      · rintro ⟨e, he, t, rfl, ht⟩
        refine ⟨e, he, (isPrefixOf_iff_exists e (e ++ t)).mpr ⟨t, rfl⟩, ?_⟩
        rw [List.drop_left]
        exact ht
    · simp only [ext_match_here, hc, if_false, ite_false, Bool.false_eq_true, false_iff]
      rintro ⟨e, he, t, heq, ht⟩
      exact hc (List.cons.injEq .. |>.mp heq).1

theorem ext_from_iff (exts : List (List Char)) : ∀ cs : List Char,
    ext_match_from exts cs = true ↔
      ∃ pre e t, e ∈ exts ∧ cs = pre ++ '.' :: (e ++ t) ∧ tail_ok t = true := by
  intro cs
  induction cs with
  | nil =>
    simp only [ext_match_from, Bool.false_eq_true, false_iff]
    rintro ⟨pre, e, t, he, heq, ht⟩
    exact List.cons_ne_nil '.' (e ++ t) (List.append_eq_nil.mp heq.symm).2
  | cons c rest ih =>
    rw [ext_match_from, Bool.or_eq_true, ih, ext_here_iff]
    constructor
    · rintro (⟨e, he, t, heq, ht⟩ | ⟨pre, e, t, he, heq, ht⟩)
      · exact ⟨[], e, t, he, by simp [heq], ht⟩
      · exact ⟨c :: pre, e, t, he, by simp [heq], ht⟩
    · rintro ⟨pre, e, t, he, heq, ht⟩
      cases pre with
      | nil =>
        left
        exact ⟨e, he, t, by simpa using heq, ht⟩
      | cons p pr =>
        right
        simp only [List.cons_append, List.cons.injEq] at heq
        exact ⟨pr, e, t, he, heq.2, ht⟩

theorem ext_match_iff (exts : List String) (s : String) :
    ext_match exts s = true ↔
      ∃ e ∈ exts, ∃ pre t, lowerData s = pre ++ '.' :: (e.data ++ t) ∧ tail_ok t = true := by
  unfold ext_match
  rw [ext_from_iff]
  constructor
  · rintro ⟨pre, e2, t, he2, heq, ht⟩
    obtain ⟨e, he, rfl⟩ := List.mem_map.mp he2
    exact ⟨e, he, pre, t, heq, ht⟩
  · rintro ⟨e, he, pre, t, heq, ht⟩
    exact ⟨pre, e.data, t, List.mem_map_of_mem _ he, heq, ht⟩

theorem lastDotSuffix_dotfree : ∀ e : List Char, (∀ c ∈ e, c ≠ '.') → lastDotSuffix e = none := by
  intro e
  induction e with
  | nil => intro _; rfl
  | cons c r ih =>
    intro h
    have hr := ih (fun x hx => h x (by simp [hx]))
    have hc : c ≠ '.' := h c (by simp)
    simp [lastDotSuffix, hr, hc]

theorem lastDotSuffix_append (e : List Char) (he : ∀ c ∈ e, c ≠ '.') :
    ∀ pre, lastDotSuffix (pre ++ '.' :: e) = some e := by
  intro pre
  induction pre with
  | nil => simp [lastDotSuffix, lastDotSuffix_dotfree e he]
  | cons c r ih => simp [lastDotSuffix, ih]

/-! Claim theorems. -/

/-- Claim C3: for every kind and document state, `generate_dialog_id` returns
`"{kind}-dialog-{n}"` where `n` is the smallest index whose identity is not an
existing document id; it never returns an id already present; it returns
`"{kind}-dialog-0"` when that identity is free; and calling it again after the
first result has been registered as a document id yields a different identity. -/
theorem c3_generate_dialog_id_least_free (doc : Doc) (kind : String) :
    (∃ n, generate_dialog_id doc kind = dialog_id_str kind n ∧
        idExists doc (dialog_id_str kind n) = false ∧
        ∀ m < n, idExists doc (dialog_id_str kind m) = true) ∧
    idExists doc (generate_dialog_id doc kind) = false ∧
    (idExists doc (dialog_id_str kind 0) = false →
        generate_dialog_id doc kind = kind ++ "-dialog-0") ∧
    (∀ doc2 : Doc, idExists doc2 (generate_dialog_id doc kind) = true →
        generate_dialog_id doc2 kind ≠ generate_dialog_id doc kind) := by
  refine ⟨generate_dialog_id_spec doc kind, generate_dialog_id_fresh doc kind, ?_, ?_⟩
  · intro h0
    obtain ⟨m, h1, h2, h3⟩ := generate_dialog_id_spec doc kind
    have hm : m = 0 := by
      by_contra hne
      have hx := h3 0 (Nat.pos_of_ne_zero hne)
      simp [hx] at h0
    rw [h1, hm, dialog_id_str_zero]
  · intro doc2 hreg heq
    have hfr := generate_dialog_id_fresh doc2 kind
    rw [heq, hreg] at hfr
    cases hfr

/-- Witness for C3 at a concrete document: the empty document yields
`"image-dialog-0"`, and once that id is registered a second call yields a
different identity. -/
theorem c3_generate_dialog_id_least_free_witness :
    (idExists emptyDoc (dialog_id_str "image" 0) = false ∧
      generate_dialog_id emptyDoc "image" = "image-dialog-0") ∧
    (idExists { elems := [{ id := some "image-dialog-0", innerHTML := "" }],
                dialogs := [],
                nextRef := 0 } (generate_dialog_id emptyDoc "image") = true ∧
      generate_dialog_id { elems := [{ id := some "image-dialog-0", innerHTML := "" }],
                           dialogs := [],
                           nextRef := 0 } "image" ≠ generate_dialog_id emptyDoc "image") := by
  refine ⟨⟨by decide, (c3_generate_dialog_id_least_free emptyDoc "image").2.2.1 (by decide)⟩,
    ⟨by decide, (c3_generate_dialog_id_least_free emptyDoc "image").2.2.2 _ (by decide)⟩⟩

/-- Claim C1, evaluated at the failing input: the guard of `open` groups as
`image || iframe || (video && !source)`, so an image request with the
non-empty source `"photo.png"` is rejected with the media-source diagnostic
and no dialog is created, while a video request with a non-empty source
proceeds and opens. -/
theorem c1_open_image_nonempty_source_rejected :
    (openDialog eq_dialog_defaults "image" "photo.png" "" emptyDoc).dialog = none ∧
    (openDialog eq_dialog_defaults "image" "photo.png" "" emptyDoc).doc = emptyDoc ∧
    (openDialog eq_dialog_defaults "image" "photo.png" "" emptyDoc).errors
      = ["Media dialogs must have a source."] ∧
    (openDialog eq_dialog_defaults "iframe" "doc.pdf" "" emptyDoc).dialog = none ∧
    (openDialog eq_dialog_defaults "video" "clip.mp4" "" emptyDoc).dialog.isSome = true := by
  decide

/-- Claim C6: materializing inline content whose identity names no document
element emits the FragmentNotFound diagnostic, returns the failure value,
attaches nothing (the document is unchanged), and subsequent triggers behave
exactly as before. -/
theorem c6_inline_fragment_not_found_fails_clean (settings : Settings) (params : Params)
    (doc : Doc) (hty : params.dialog_type = "inline")
    (hfind : findElemById doc.elems params.dialog_id = none) :
    (create_dialog settings params doc).dialog = none ∧
    (create_dialog settings params doc).doc = doc ∧
    (create_dialog settings params doc).errors
      = ["Unable to find element with ID of \x27#" ++ params.dialog_id ++ "\x27"] ∧
    ∀ el : Trigger, init_trigger settings el (create_dialog settings params doc).doc
        = init_trigger settings el doc := by
  have hres : create_dialog settings params doc =
      { dialog := none, doc := doc,
        errors := ["Unable to find element with ID of \x27#" ++ params.dialog_id ++ "\x27"] } := by
    simp [create_dialog, hty, hfind]
  rw [hres]
  exact ⟨rfl, rfl, rfl, fun el => rfl⟩

/-- Witness for C6 at a concrete input: an inline materialization against the
empty document fails and leaves the document empty. -/
theorem c6_inline_fragment_not_found_fails_clean_witness :
    (create_dialog eq_dialog_defaults
        { dialog_type := "inline", dialog_id := "missing", src := "", img_alt := "",
          close_button_text := some "Close dialog" } emptyDoc).dialog = none ∧
    (create_dialog eq_dialog_defaults
        { dialog_type := "inline", dialog_id := "missing", src := "", img_alt := "",
          close_button_text := some "Close dialog" } emptyDoc).doc = emptyDoc := by
  have h := c6_inline_fragment_not_found_fails_clean eq_dialog_defaults
    { dialog_type := "inline", dialog_id := "missing", src := "", img_alt := "",
      close_button_text := some "Close dialog" } emptyDoc (by decide) (by decide)
  exact ⟨h.1, h.2.1⟩

/-- Claim C7: a successful inline materialization applies exactly one of the
two configured effects to the source fragment: with `remove_inline_content`
set the fragment is deleted from the document, otherwise the fragment stays
but its id attribute is stripped; the surrounding elements are untouched,
and the fragment is never left untouched. -/
theorem c7_inline_exactly_one_effect (settings : Settings) (params : Params) (doc : Doc)
    (frag : Elem) (hty : params.dialog_type = "inline")
    (hfind : findElemById doc.elems params.dialog_id = some frag) :
    ∃ pre post,
      doc.elems = pre ++ frag :: post ∧ frag.id = some params.dialog_id ∧
      (∀ e ∈ pre, e.id ≠ some params.dialog_id) ∧
      (create_dialog settings params doc).dialog.isSome = true ∧
      (create_dialog settings params doc).doc.elems =
        (if settings.remove_inline_content then pre ++ post
         else pre ++ { frag with id := none } :: post) ∧
      (create_dialog settings params doc).doc.elems ≠ doc.elems := by
  obtain ⟨pre, post, hsplit, hid, hpre⟩ :=
    findElemById_decomp doc.elems params.dialog_id frag hfind
  have helems : (create_dialog settings params doc).doc.elems =
      (if settings.remove_inline_content then pre ++ post
       else pre ++ { frag with id := none } :: post) := by
    by_cases hrem : settings.remove_inline_content
    · simp only [create_dialog, hty, if_true, hfind, hrem]
      rw [hsplit, removeFirstById_decomp pre frag post params.dialog_id hid hpre]
    · simp only [create_dialog, hty, if_true, hfind, hrem, if_false, ite_false]
      rw [hsplit, stripFirstById_decomp pre frag post params.dialog_id hid hpre]
      simp
  refine ⟨pre, post, hsplit, hid, hpre, by simp [create_dialog, hty, hfind], helems, ?_⟩
  rw [helems, hsplit]
  by_cases hrem : settings.remove_inline_content
  · rw [if_pos hrem]
    intro heq
    have h2 := List.append_cancel_left heq
    have hlen := congrArg List.length h2
    simp at hlen
  · rw [if_neg hrem]
    intro heq
    have h2 := List.append_cancel_left heq
    have h3 : ({ frag with id := none } : Elem) = frag := (List.cons.injEq .. |>.mp h2).1
    have h4 := congrArg Elem.id h3
    simp [hid] at h4

/-- Witness for C7 at a concrete input: with the default configuration the
unique fragment keeps its place but loses its id, so the element list does
change. -/
theorem c7_inline_exactly_one_effect_witness :
    (create_dialog eq_dialog_defaults
        { dialog_type := "inline", dialog_id := "details", src := "", img_alt := "",
          close_button_text := some "Close dialog" }
        { elems := [{ id := some "details", innerHTML := "<p>x</p>" }], dialogs := [],
          nextRef := 0 }).dialog.isSome = true ∧
    (create_dialog eq_dialog_defaults
        { dialog_type := "inline", dialog_id := "details", src := "", img_alt := "",
          close_button_text := some "Close dialog" }
        { elems := [{ id := some "details", innerHTML := "<p>x</p>" }], dialogs := [],
          nextRef := 0 }).doc.elems ≠
      ({ elems := [{ id := some "details", innerHTML := "<p>x</p>" }], dialogs := [],
          nextRef := 0 } : Doc).elems := by
  obtain ⟨pre, post, h1, h2, h3, h4, h5, h6⟩ :=
    c7_inline_exactly_one_effect eq_dialog_defaults
      { dialog_type := "inline", dialog_id := "details", src := "", img_alt := "",
        close_button_text := some "Close dialog" }
      { elems := [{ id := some "details", innerHTML := "<p>x</p>" }], dialogs := [],
        nextRef := 0 }
      { id := some "details", innerHTML := "<p>x</p>" } (by decide) (by decide)
  exact ⟨h4, h6⟩

theorem create_dialog_media_result (settings : Settings) (params : Params) (doc : Doc)
    (hty : params.dialog_type ≠ "inline") :
    ∃ d, (create_dialog settings params doc).dialog = some d ∧ d.ref = doc.nextRef ∧
      (create_dialog settings params doc).doc =
        { elems := doc.elems, dialogs := doc.dialogs ++ [d], nextRef := doc.nextRef + 1 } := by
  simp only [create_dialog]
  rw [if_neg hty]
  exact ⟨_, rfl, rfl, rfl⟩

/-- Claim C2 as amended: materialization is not idempotent per identity,
because `create_dialog` never checks for an existing dialog.  A second call
with the same media identity builds a distinct second modal element rather
than returning the first; a second call with the same (unique) inline
identity fails with FragmentNotFound — the first call consumed the
fragment's id — so the fragment's content is still never copied twice and
the fragment is never stripped or deleted twice. -/
theorem c2_materialize_not_idempotent :
    (∀ (settings : Settings) (params : Params) (doc : Doc),
      params.dialog_type = "image" →
      ∃ d1 d2,
        (create_dialog settings params doc).dialog = some d1 ∧
        (create_dialog settings params (create_dialog settings params doc).doc).dialog
          = some d2 ∧
        d1.ref ≠ d2.ref ∧
        (create_dialog settings params
            (create_dialog settings params doc).doc).doc.dialogs.length
          = doc.dialogs.length + 2) ∧
    (∀ (settings : Settings) (params : Params) (doc : Doc) (frag : Elem),
      params.dialog_type = "inline" →
      findElemById doc.elems params.dialog_id = some frag →
      countById doc.elems params.dialog_id ≤ 1 →
      (create_dialog settings params doc).dialog.isSome = true ∧
      (create_dialog settings params (create_dialog settings params doc).doc).dialog = none ∧
      (create_dialog settings params (create_dialog settings params doc).doc).doc
        = (create_dialog settings params doc).doc) := by
  constructor
  · intro settings params doc hty
    have hne : params.dialog_type ≠ "inline" := by rw [hty]; decide
    obtain ⟨d1, h1, hr1, hdoc1⟩ := create_dialog_media_result settings params doc hne
    obtain ⟨d2, h2, hr2, hdoc2⟩ :=
      create_dialog_media_result settings params (create_dialog settings params doc).doc hne
    refine ⟨d1, d2, h1, h2, ?_, ?_⟩
    · rw [hr1, hr2, hdoc1]
      simp
    · rw [hdoc2, hdoc1]
      simp
  · intro settings params doc frag hty hfind hcount
    have hsucc : (create_dialog settings params doc).dialog.isSome = true := by
      simp [create_dialog, hty, hfind]
    have helems : (create_dialog settings params doc).doc.elems =
        (if settings.remove_inline_content then removeFirstById doc.elems params.dialog_id
         else stripFirstById doc.elems params.dialog_id) := by
      by_cases hrem : settings.remove_inline_content <;>
        simp [create_dialog, hty, hfind, hrem]
    have hfind2 :
        findElemById (create_dialog settings params doc).doc.elems params.dialog_id = none := by
      rw [helems]
      by_cases hrem : settings.remove_inline_content
      · rw [if_pos hrem]
        exact find_after_remove _ _ hcount
      · rw [if_neg hrem]
        exact find_after_strip _ _ hcount
    set doc1 := (create_dialog settings params doc).doc with hdoc1
    refine ⟨hsucc, ?_, ?_⟩
    · simp [create_dialog, hty, hfind2]
    · simp [create_dialog, hty, hfind2]

/-- Counterexample to claim C2 as stated: materializing the image identity
`"image-dialog-0"` twice builds a second, distinct modal element instead of
returning the first one; after the second call two dialogs stand in the
document. -/
theorem c2_counterexample_second_materialize_new_element :
    ((create_dialog eq_dialog_defaults
        { dialog_type := "image", dialog_id := "image-dialog-0", src := "a.png",
          img_alt := "", close_button_text := some "Close dialog" }
        (create_dialog eq_dialog_defaults
          { dialog_type := "image", dialog_id := "image-dialog-0", src := "a.png",
            img_alt := "", close_button_text := some "Close dialog" } emptyDoc).doc).dialog ≠
      (create_dialog eq_dialog_defaults
        { dialog_type := "image", dialog_id := "image-dialog-0", src := "a.png",
          img_alt := "", close_button_text := some "Close dialog" } emptyDoc).dialog) ∧
    (create_dialog eq_dialog_defaults
        { dialog_type := "image", dialog_id := "image-dialog-0", src := "a.png",
          img_alt := "", close_button_text := some "Close dialog" }
        (create_dialog eq_dialog_defaults
          { dialog_type := "image", dialog_id := "image-dialog-0", src := "a.png",
            img_alt := "", close_button_text := some "Close dialog" }
          emptyDoc).doc).doc.dialogs.length = 2 := by
  decide

/-- Witness for the amended C2 at concrete inputs: two image materializations
leave two dialogs; the second materialization of a unique inline fragment
returns the failure value. -/
theorem c2_materialize_not_idempotent_witness :
    ((create_dialog eq_dialog_defaults
        { dialog_type := "image", dialog_id := "i", src := "a.png", img_alt := "",
          close_button_text := none }
        (create_dialog eq_dialog_defaults
          { dialog_type := "image", dialog_id := "i", src := "a.png", img_alt := "",
            close_button_text := none } emptyDoc).doc).doc.dialogs.length
      = emptyDoc.dialogs.length + 2) ∧
    (create_dialog eq_dialog_defaults
        { dialog_type := "inline", dialog_id := "details", src := "", img_alt := "",
          close_button_text := none }
        (create_dialog eq_dialog_defaults
          { dialog_type := "inline", dialog_id := "details", src := "", img_alt := "",
            close_button_text := none }
          { elems := [{ id := some "details", innerHTML := "<p>x</p>" }], dialogs := [],
            nextRef := 0 }).doc).dialog = none := by
  constructor
  · obtain ⟨d1, d2, h1, h2, h3, h4⟩ :=
      c2_materialize_not_idempotent.1 eq_dialog_defaults
        { dialog_type := "image", dialog_id := "i", src := "a.png", img_alt := "",
          close_button_text := none } emptyDoc (by decide)
    exact h4
  · obtain ⟨h1, h2, h3⟩ :=
      c2_materialize_not_idempotent.2 eq_dialog_defaults
        { dialog_type := "inline", dialog_id := "details", src := "", img_alt := "",
          close_button_text := none }
        { elems := [{ id := some "details", innerHTML := "<p>x</p>" }], dialogs := [],
          nextRef := 0 }
        { id := some "details", innerHTML := "<p>x</p>" } (by decide) (by decide) (by decide)
    exact h2

/-- Claim C10: the dialog element built by `create_dialog` never has an id
attribute; a media materialization leaves the document id namespace
unchanged, so the generated identity stays unregistered and a repeated
`generate_dialog_id` call returns the same string; and the in-page anchor
`init` writes into a hyperlink trigger names an identity that no
library-created dialog carries. -/
theorem c10_no_id_assigned_and_stable_generation :
    (∀ (settings : Settings) (params : Params) (doc : Doc) (d : Dialog),
      (create_dialog settings params doc).dialog = some d →
      d.id = none ∧ (create_dialog settings params doc).doc.dialogs = doc.dialogs ++ [d]) ∧
    (∀ (settings : Settings) (params : Params) (doc : Doc),
      params.dialog_type ≠ "inline" →
      docIds (create_dialog settings params doc).doc = docIds doc ∧
      ∀ kind, generate_dialog_id (create_dialog settings params doc).doc kind
          = generate_dialog_id doc kind) ∧
    (∀ (settings : Settings) (el : Trigger) (doc : Doc),
      (truthy el.href).isSome = true → dialogsNoId doc →
      (init_trigger settings el doc).dialog.isSome = true →
      ∃ i, (init_trigger settings el doc).newHref = some ("#" ++ i) ∧
        ∀ d ∈ (init_trigger settings el doc).doc.dialogs, d.id ≠ some i) := by
  refine ⟨fun settings params doc d h => create_dialog_shape settings params doc d h, ?_, ?_⟩
  · intro settings params doc hty
    have h1 := create_dialog_docIds_stable settings params doc hty
    exact ⟨h1, fun kind => generate_dialog_id_congr h1 kind⟩
  · intro settings el doc hhref hnoid hsome
    simp only [init_trigger] at hsome ⊢
    cases hsrc : trigger_src el with
    | none => simp [hsrc] at hsome
    | some src =>
      simp only [hsrc] at hsome ⊢
      cases hty : (match truthy el.dataType with | some t => some t | none => classify src) with
      | none => simp [hty] at hsome
      | some ty =>
        simp only [hty] at hsome ⊢
        cases hdlg : (create_dialog settings
            (mk_init_params settings el ty
              (if ty = "inline" ∧ src ≠ "" then src.drop 1 else generate_dialog_id doc ty) src)
            doc).dialog with
        | none => simp [hdlg] at hsome
        | some d =>
          simp only [hdlg] at hsome ⊢
          refine ⟨if ty = "inline" ∧ src ≠ "" then src.drop 1 else generate_dialog_id doc ty,
            by simp [hhref], ?_⟩
          intro d2 hd2
          obtain ⟨hid, hdialogs⟩ := create_dialog_shape settings _ doc d hdlg
          rw [hdialogs] at hd2
          rcases List.mem_append.mp hd2 with hmem | hmem
          · simp [hnoid d2 hmem]
          · have : d2 = d := by simpa using hmem
            rw [this]
            simp [hid]

/-- Witness for C10 at concrete inputs: the image dialog built against the
empty document carries no id, the id namespace stays empty, and the rewritten
trigger href points at an identity no created dialog carries. -/
theorem c10_no_id_assigned_and_stable_generation_witness :
    (((create_dialog eq_dialog_defaults
        { dialog_type := "image", dialog_id := "i", src := "a.png", img_alt := "",
          close_button_text := none } emptyDoc).dialog.getD
        { ref := 0, id := none, innerContent := "", style := [], isOpen := false }).id
      = none) ∧
    docIds (create_dialog eq_dialog_defaults
        { dialog_type := "image", dialog_id := "i", src := "a.png", img_alt := "",
          close_button_text := none } emptyDoc).doc = docIds emptyDoc ∧
    (∃ i, (init_trigger eq_dialog_defaults
        { dataType := none, href := some "photo.png", dataTarget := none, imgAlt := none,
          closeBtnTxt := none } emptyDoc).newHref = some ("#" ++ i) ∧
      ∀ d ∈ (init_trigger eq_dialog_defaults
          { dataType := none, href := some "photo.png", dataTarget := none, imgAlt := none,
            closeBtnTxt := none } emptyDoc).doc.dialogs, d.id ≠ some i) := by
  refine ⟨?_, ?_, ?_⟩
  · exact (c10_no_id_assigned_and_stable_generation.1 eq_dialog_defaults
      { dialog_type := "image", dialog_id := "i", src := "a.png", img_alt := "",
        close_button_text := none } emptyDoc _ (by decide)).1
  · exact (c10_no_id_assigned_and_stable_generation.2.1 eq_dialog_defaults
      { dialog_type := "image", dialog_id := "i", src := "a.png", img_alt := "",
        close_button_text := none } emptyDoc (by decide)).1
  · exact c10_no_id_assigned_and_stable_generation.2.2 eq_dialog_defaults
      { dataType := none, href := some "photo.png", dataTarget := none, imgAlt := none,
        closeBtnTxt := none } emptyDoc (by decide) (by simp [dialogsNoId, emptyDoc]) (by decide)

/-- Claim C4: kind inference applies the priority image, then video, then
pdf/iframe, then inline, with no default when nothing matches (the trigger
is skipped with a diagnostic and the document untouched); the extension
predicates hold exactly for a case-insensitive dotted extension followed by
an admissible query/fragment tail; and the raw source is forwarded to
materialization unmodified. -/
theorem c4_classification_priority_and_skip :
    (∀ s : String,
      (image_match s = true → classify s = some "image") ∧
      (image_match s = false → video_match s = true → classify s = some "video") ∧
      (image_match s = false → video_match s = false → pdf_match s = true →
        classify s = some "iframe") ∧
      (image_match s = false → video_match s = false → pdf_match s = false →
        s.data.head? = some '#' → classify s = some "inline") ∧
      (image_match s = false → video_match s = false → pdf_match s = false →
        s.data.head? ≠ some '#' → classify s = none)) ∧
    (∀ (exts : List String) (s : String),
      ext_match exts s = true ↔
        ∃ e ∈ exts, ∃ pre t, lowerData s = pre ++ '.' :: (e.data ++ t) ∧ tail_ok t = true) ∧
    (∀ (settings : Settings) (el : Trigger) (doc : Doc) (src : String),
      truthy el.dataType = none → trigger_src el = some src → classify src = none →
      init_trigger settings el doc =
        { doc := doc, dialog := none, newHref := el.href,
          errors := ["Could not determine the dialog type for " ++ src ++
            ". Please specify the attribute \x27data-type\x27 or \x27href\x27."] }) ∧
    (∀ (settings : Settings) (el : Trigger) (ty dialog_id src : String),
      (mk_init_params settings el ty dialog_id src).src = src) := by
  refine ⟨?_, ext_match_iff, ?_, fun _ _ _ _ _ => rfl⟩
  · intro s
    refine ⟨?_, ?_, ?_, ?_, ?_⟩
    · intro h1
      simp [classify, h1]
    · intro h1 h2
      simp [classify, h1, h2]
    · intro h1 h2 h3
      simp [classify, h1, h2, h3]
    · intro h1 h2 h3 h4
      simp [classify, h1, h2, h3, h4]
    · intro h1 h2 h3 h4
      simp [classify, h1, h2, h3, h4]
  · intro settings el doc src hdt hsrc hcls
    simp [init_trigger, hsrc, hdt, hcls]

/-- Witness for C4 at concrete inputs: an upper-case image extension with a
query classifies as image; a video source classifies as video; an
unclassifiable source is skipped with the diagnostic. -/
theorem c4_classification_priority_and_skip_witness :
    (image_match "photo.PNG?x=1" = true ∧ classify "photo.PNG?x=1" = some "image") ∧
    (image_match "clip.mp4" = false ∧ video_match "clip.mp4" = true ∧
      classify "clip.mp4" = some "video") ∧
    init_trigger eq_dialog_defaults
        { dataType := none, href := some "nomatch", dataTarget := none, imgAlt := none,
          closeBtnTxt := none } emptyDoc =
      { doc := emptyDoc, dialog := none, newHref := some "nomatch",
        errors := ["Could not determine the dialog type for nomatch. Please specify the attribute \x27data-type\x27 or \x27href\x27."] } := by
  refine ⟨⟨by decide, (c4_classification_priority_and_skip.1 "photo.PNG?x=1").1 (by decide)⟩,
    ⟨by decide, by decide,
      (c4_classification_priority_and_skip.1 "clip.mp4").2.1 (by decide) (by decide)⟩, ?_⟩
  have h := c4_classification_priority_and_skip.2.2.1 eq_dialog_defaults
    { dataType := none, href := some "nomatch", dataTarget := none, imgAlt := none,
      closeBtnTxt := none } emptyDoc "nomatch" (by decide) (by decide) (by decide)
  rw [h]
  decide

/-- Claim C5 as amended: the trap consults only `key` and `shiftKey`.  With
no open dialog every key-down passes through; with an open dialog holding a
non-empty focusable list, Tab without shift on the last focusable wraps to
the first and cancels default, Tab with shift on the first wraps to the
last, and every other combination of `key`, `shiftKey` and focus position
passes through unmodified — other modifiers are ignored. -/
theorem c5_focus_trap_shift_only :
    (∀ (act : Option Nat) (e : KeyEvent),
      keydown { openFocusables := none, activeElement := act } e = .result false none) ∧
    (∀ (fs : List Nat) (act : Option Nat) (e : KeyEvent),
      fs ≠ [] → e.key = "Tab" → e.shiftKey = false → act = fs[fs.length - 1]? →
      keydown { openFocusables := some fs, activeElement := act } e = .result true fs[0]?) ∧
    (∀ (fs : List Nat) (act : Option Nat) (e : KeyEvent),
      fs ≠ [] → e.key = "Tab" → e.shiftKey = true → act = fs[0]? →
      keydown { openFocusables := some fs, activeElement := act } e
        = .result true fs[fs.length - 1]?) ∧
    (∀ (fs : List Nat) (act : Option Nat) (e : KeyEvent),
      e.key ≠ "Tab" ∨ (e.shiftKey = false ∧ act ≠ fs[fs.length - 1]?) ∨
        (e.shiftKey = true ∧ act ≠ fs[0]?) →
      keydown { openFocusables := some fs, activeElement := act } e = .result false none) := by
  refine ⟨fun act e => rfl, ?_, ?_, ?_⟩
  · intro fs act e hfs hk hs hact
    cases fs with
    | nil => exact absurd rfl hfs
    | cons a t =>
      simp only [keydown]
      rw [if_pos ⟨hs, hk, hact⟩]
      simp
  · intro fs act e hfs hk hs hact
    cases fs with
    | nil => exact absurd rfl hfs
    | cons a t =>
      simp only [keydown]
      rw [if_neg (fun hc => by simp [hs] at hc), if_pos ⟨hs, hk, hact⟩]
      cases hv : (a :: t)[(a :: t).length - 1]? with
      | none =>
        exfalso
        have := List.getElem?_eq_none_iff.mp hv
        simp at this
      | some v => rfl
  · intro fs act e h
    simp only [keydown]
    rcases h with hk | ⟨hs, hact⟩ | ⟨hs, hact⟩
    · rw [if_neg (fun hc => hk hc.2.1), if_neg (fun hc => hk hc.2.1)]
    · rw [if_neg (fun hc => hact hc.2.2), if_neg (fun hc => by simp [hs] at hc)]
    · rw [if_neg (fun hc => by simp [hs] at hc), if_neg (fun hc => hact hc.2.2)]

/-- Counterexample to claim C5 as stated: Ctrl+Tab is not "exactly the Tab
key without modifier", yet with focus on the last focusable the handler
still cancels default navigation and moves focus to the first. -/
theorem c5_counterexample_ctrl_tab_trapped :
    keydown { openFocusables := some [1, 2], activeElement := some 2 }
        { key := "Tab", shiftKey := false, ctrlKey := true, altKey := false, metaKey := false }
      = .result true (some 1) ∧
    ({ key := "Tab", shiftKey := false, ctrlKey := true, altKey := false,
        metaKey := false } : KeyEvent).ctrlKey = true := by
  decide

/-- Witness for the amended C5 at concrete inputs: Tab on the last wraps to
the first, Shift+Tab on the first wraps to the last, an ordinary key passes
through. -/
theorem c5_focus_trap_shift_only_witness :
    keydown { openFocusables := some [1, 2, 3], activeElement := some 3 }
        { key := "Tab", shiftKey := false, ctrlKey := false, altKey := false, metaKey := false }
      = .result true (([1, 2, 3] : List Nat)[0]?) ∧
    keydown { openFocusables := some [1, 2, 3], activeElement := some 1 }
        { key := "Tab", shiftKey := true, ctrlKey := false, altKey := false, metaKey := false }
      = .result true (([1, 2, 3] : List Nat)[([1, 2, 3] : List Nat).length - 1]?) ∧
    keydown { openFocusables := some [1, 2, 3], activeElement := some 2 }
        { key := "a", shiftKey := false, ctrlKey := false, altKey := false, metaKey := false }
      = .result false none := by
  exact ⟨c5_focus_trap_shift_only.2.1 [1, 2, 3] (some 3) _ (by decide) rfl rfl (by decide),
    c5_focus_trap_shift_only.2.2.1 [1, 2, 3] (some 1) _ (by decide) rfl rfl (by decide),
    c5_focus_trap_shift_only.2.2.2 [1, 2, 3] (some 2) _ (Or.inl (by decide))⟩

/-- Claim C9 as amended: with an open modal holding zero focusable elements
the handler performs no action and does not throw whenever some element has
focus, and also for every non-Tab key; but when `document.activeElement` is
null and Tab is pressed, the null first/last comparison succeeds and calling
focus on null throws. -/
theorem c9_empty_focusables_noop_when_focused :
    ∀ (e : KeyEvent) (act : Option Nat),
      (∀ a, act = some a →
        keydown { openFocusables := some [], activeElement := act } e = .result false none) ∧
      (act = none → e.key = "Tab" →
        keydown { openFocusables := some [], activeElement := act } e = .jsError) ∧
      (e.key ≠ "Tab" →
        keydown { openFocusables := some [], activeElement := act } e = .result false none) := by
  intro e act
  refine ⟨?_, ?_, ?_⟩
  · intro a ha
    subst ha
    simp only [keydown]
    rw [if_neg (fun hc => by simpa using hc.2.2), if_neg (fun hc => by simpa using hc.2.2)]
  · rintro rfl hk
    by_cases hs : e.shiftKey = true
    · simp only [keydown]
      rw [if_neg (fun hc => by simp [hs] at hc), if_pos ⟨hs, hk, rfl⟩]
      rfl
    · have hsf : e.shiftKey = false := by simpa using hs
      simp only [keydown]
      rw [if_pos ⟨hsf, hk, rfl⟩]
      rfl
  · intro hk
    simp only [keydown]
    rw [if_neg (fun hc => hk hc.2.1), if_neg (fun hc => hk hc.2.1)]

/-- Counterexample to claim C9 as stated: with zero focusables and a null
`document.activeElement`, the Tab branch fires (null equals null) and the
focus call on the null first element throws instead of no-opping. -/
theorem c9_counterexample_null_active_throws :
    keydown { openFocusables := some [], activeElement := none }
        { key := "Tab", shiftKey := false, ctrlKey := false, altKey := false, metaKey := false }
      = .jsError := by
  decide

/-- Witness for the amended C9 at concrete inputs: focused element present,
Tab no-ops; null focus with Shift+Tab throws; a non-Tab key no-ops. -/
theorem c9_empty_focusables_noop_when_focused_witness :
    keydown { openFocusables := some [], activeElement := some 5 }
        { key := "Tab", shiftKey := false, ctrlKey := false, altKey := false, metaKey := false }
      = .result false none ∧
    keydown { openFocusables := some [], activeElement := none }
        { key := "Tab", shiftKey := true, ctrlKey := false, altKey := false, metaKey := false }
      = .jsError ∧
    keydown { openFocusables := some [], activeElement := none }
        { key := "Escape", shiftKey := false, ctrlKey := false, altKey := false,
          metaKey := false }
      = .result false none := by
  exact ⟨(c9_empty_focusables_noop_when_focused _ (some 5)).1 5 rfl,
    (c9_empty_focusables_noop_when_focused _ none).2.1 rfl rfl,
    (c9_empty_focusables_noop_when_focused _ none).2.2 (by decide)⟩

/-- Claim C8 as amended: the media-type hint is `"video/"` followed by the
entire substring after the source's last dot — equal to `"video/" ++
extension` exactly when the source ends with the extension (as in
`clip.mp4` → `video/mp4`), while a trailing query or fragment stays inside
the hint — and the video materialization embeds that hint through
`render_video`. -/
theorem c8_video_format_last_dot_suffix :
    (∀ pre e : List Char, e ≠ [] → (∀ c ∈ e, c ≠ '.') →
      video_format (List.asString (pre ++ '.' :: e)) = "video/" ++ List.asString e) ∧
    video_format "clip.mp4" = "video/mp4" ∧
    (∀ (settings : Settings) (params : Params) (doc : Doc),
      params.dialog_type = "video" →
      ∃ d, (create_dialog settings params doc).dialog = some d ∧
        d.innerContent =
          (if settings.show_close_button then close_button_html params.close_button_text
           else "") ++ render_video params.src) := by
  refine ⟨?_, by decide, ?_⟩
  · intro pre e he hdot
    unfold video_format
    have hdata : (List.asString (pre ++ '.' :: e)).data = pre ++ '.' :: e := rfl
    rw [hdata, lastDotSuffix_append e hdot pre]
    simp [he]
  · intro settings params doc hty
    have hne : params.dialog_type ≠ "inline" := by rw [hty]; decide
    simp only [create_dialog]
    rw [if_neg hne]
    refine ⟨_, rfl, ?_⟩
    rw [hty, if_neg (by decide : ¬("video" : String) = "image"), if_pos rfl]

/-- Counterexample to claim C8 as stated: the resolver accepts
`"clip.mp4?t=1"` as a video source, but the hint is `"video/mp4?t=1"`, not
`"video/" ++ "mp4"`. -/
theorem c8_counterexample_query_in_format :
    classify "clip.mp4?t=1" = some "video" ∧
    video_format "clip.mp4?t=1" = "video/mp4?t=1" ∧
    video_format "clip.mp4?t=1" ≠ "video/mp4" := by
  decide

/-- Witness for the amended C8 at concrete inputs. -/
theorem c8_video_format_last_dot_suffix_witness :
    video_format (List.asString (['c', 'l', 'i', 'p'] ++ '.' :: ['m', 'p', '4']))
      = "video/" ++ List.asString ['m', 'p', '4'] ∧
    ∃ d, (create_dialog eq_dialog_defaults
        { dialog_type := "video", dialog_id := "v", src := "clip.mp4", img_alt := "",
          close_button_text := none } emptyDoc).dialog = some d ∧
      d.innerContent =
        (if eq_dialog_defaults.show_close_button then close_button_html none else "")
          ++ render_video "clip.mp4" := by
  exact ⟨c8_video_format_last_dot_suffix.1 ['c', 'l', 'i', 'p'] ['m', 'p', '4']
      (by decide) (by decide),
    c8_video_format_last_dot_suffix.2.2 eq_dialog_defaults
      { dialog_type := "video", dialog_id := "v", src := "clip.mp4", img_alt := "",
        close_button_text := none } emptyDoc rfl⟩

end EqDialog
